import Mathlib

/-! Verification development for the ARWIGOS financial-advice chat backend
(src/backend/fastapi_server). The Python sources are shallowly embedded:
pure helpers become Lean functions, the Supabase-backed persistence becomes
explicit state passing over a `DB` record, and every fallible external call
(token verification, LLM routing, LLM generation, HTTP fetches, database
writes) becomes an explicit outcome value supplied through an environment
record, so each handler is a total function of its inputs and outcomes.
Python strings are sequences of code points, embedded as Lean `String`;
slicing `s[:n]` is `pyTake s n` (the first `n` code points).
-/

namespace ARWIGOS

set_option maxRecDepth 4096

/-- User ids and conversation ids (opaque keys in the database). -/
abbrev UserId := Nat

abbrev ConvId := Nat

/-- Python string slicing `s[:n]`: the first `n` code points. -/
def pyTake (s : String) (n : Nat) : String := ⟨s.data.take n⟩

theorem pyTake_length (s : String) (n : Nat) :
    (pyTake s n).length = min n s.length := by
  cases s with
  | mk data => simp [pyTake, String.length, List.length_take]

/-- Python `s.startswith(pre)`: the first code points of `s` are `pre`. -/
def pyStartsWith (s pre : String) : Bool :=
  s.data.take pre.data.length == pre.data

theorem string_length_append (s t : String) :
    (s ++ t).length = s.length + t.length := by
  cases s with
  | mk a =>
    cases t with
    | mk b =>
      show (String.mk (a ++ b)).length = a.length + b.length
      simp [String.length]

/-! Data model (rows of the `conversations` and `chat_messages` tables) -/

/-- A row of the `conversations` table. Timestamps are abstract `Nat`
instants (the code uses ISO strings from `datetime.now`, which compare
chronologically). -/
structure Conversation where
  id : ConvId
  user_id : UserId
  title : String
  created_at : Nat
  updated_at : Nat
deriving DecidableEq

/-- A row of the `chat_messages` table, i.e. one Turn: user message,
assistant reply, responding agent and creation instant. -/
structure ChatMessage where
  conversation_id : ConvId
  user_id : UserId
  user_message : String
  ai_response : String
  context : Option String
  agent_name : String
  created_at : Nat
deriving DecidableEq

/-- The persistent store backing the server: both tables. -/
structure DB where
  conversations : List Conversation
  chat_messages : List ChatMessage
deriving DecidableEq

/-! agents.py: the static agent catalog -/

/-- agents.py `AgentDefinition`. The Python `AgentIcon` / `AgentColor`
string enums are embedded as their string values. -/
structure AgentDefinition where
  name : String
  display_name : String
  description : String
  tools : List String
  icon : String
  color : String
  instructions : String
deriving DecidableEq

/-- agents.py `AGENT_DEFINITIONS`: the static catalog, in declaration
order, with the instruction strings reproduced verbatim. -/
def AGENT_DEFINITIONS : List (String × AgentDefinition) :=
  [ ("market_analyst",
     { name := "market_analyst"
       display_name := "Market Analyst"
       description := "Provides market trends, financial news, and stock performance analysis"
       tools := ["NewsSearch", "PriceCheck"]
       icon := "chart-bar"
       color := "#10b981"
       instructions := "You are a Market Analyst specializing in financial markets and economic trends. Use data from financial news and stock prices to provide insightful analysis. Focus on explaining market movements, industry trends, and how economic events might impact investments. Be precise with data but explain concepts clearly." }),
    ("portfolio_manager",
     { name := "portfolio_manager"
       display_name := "Portfolio Manager"
       description := "Analyzes investment portfolios, asset allocation, and risk management"
       tools := ["AnalyzePortfolio", "RiskAssessment", "PerformanceChart"]
       icon := "trending-up"
       color := "#3b82f6"
       instructions := "You are a Portfolio Manager with expertise in investment allocation and risk management. Analyze portfolio performance, suggest rebalancing strategies, and provide guidance on diversification. Use portfolio analysis tools to give data-driven recommendations while considering the user\x27s risk tolerance and investment goals." }),
    ("financial_advisor",
     { name := "financial_advisor"
       display_name := "Financial Advisor"
       description := "Provides personalized financial planning and investment advice"
       tools := ["CreatePlan", "AnalyzePortfolio", "RiskAssessment"]
       icon := "piggy-bank"
       color := "#8b5cf6"
       instructions := "You are a Financial Advisor who provides holistic financial guidance. Help users create comprehensive financial plans, taking into account their goals, current financial situation, and risk tolerance. Provide actionable advice on savings, investments, debt management, and long-term financial planning." }),
    ("tax_planner",
     { name := "tax_planner"
       display_name := "Tax Strategist"
       description := "Advises on tax-efficient investment strategies and planning"
       tools := ["AnalyzePortfolio", "CreatePlan"]
       icon := "landmark"
       color := "#f59e0b"
       instructions := "You are a Tax Strategist specializing in tax-efficient investment and financial planning. Help users understand tax implications of various investment choices, suggest tax-advantaged accounts, and discuss tax minimization strategies. Focus on legal tax optimization while being clear that you\x27re providing educational information, not official tax advice." }),
    ("retirement_planner",
     { name := "retirement_planner"
       display_name := "Retirement Planning"
       description := "Specializes in retirement planning and long-term financial security"
       tools := ["CreatePlan", "AnalyzePortfolio"]
       icon := "hourglass"
       color := "#ec4899"
       instructions := "You are a Retirement Planning Specialist focused on helping users prepare for retirement. Discuss retirement savings strategies, pension options, withdrawal strategies, and how to create sustainable income in retirement. Consider factors like life expectancy, inflation, healthcare costs, and desired retirement lifestyle in your recommendations." }),
    ("general",
     { name := "general"
       display_name := "Financial Assistant"
       description := "General financial information and guidance on various topics"
       tools := ["NewsSearch", "PriceCheck", "AnalyzePortfolio", "CreatePlan"]
       icon := "brain"
       color := "#6b7280"
       instructions := "You are a General Financial Assistant who can provide broad information on various financial topics. Answer questions about basic financial concepts, current events, and provide general guidance. When questions require specialized expertise, indicate which type of financial professional would be best suited to provide detailed advice." }) ]

/-- agents.py `ERROR_AGENT`. -/
def ERROR_AGENT : AgentDefinition :=
  { name := "error"
    display_name := "Error Recovery"
    description := "Handles error situations and provides guidance on next steps"
    tools := []
    icon := "alert-circle"
    color := "#ef4444"
    instructions := "You are an Error Recovery assistant. Explain the error that occurred in simple terms, suggest possible solutions or workarounds, and guide the user on what to try next." }

/-- agents.py `DEFAULT_AGENT`. -/
def DEFAULT_AGENT : AgentDefinition :=
  { name := "default"
    display_name := "AI Advisor"
    description := "General AI assistant for financial topics"
    tools := []
    icon := "bot"
    color := "#64748b"
    instructions := "You are an AI Financial Assistant. Provide helpful, accurate information on financial topics. Direct users to appropriate specialized agents for more detailed assistance." }

/-- agents.py `get_agent_definition`: catalog lookup, then the reserved
name `error`, then the default agent. -/
def get_agent_definition (agent_name : String) : AgentDefinition :=
  match AGENT_DEFINITIONS.lookup agent_name with
  | some d => d
  | none => if agent_name = "error" then ERROR_AGENT else DEFAULT_AGENT

/-- agents.py `generate_conversation_title`: fallback for the empty
message, identity up to 50 code points, else 47 code points plus dots. -/
def generate_conversation_title (user_message : String) : String :=
  if user_message = "" then "New Financial Conversation"
  else if user_message.length ≤ 50 then user_message
  else pyTake user_message 47 ++ "..."

/-! main.py tools: search_financial_news and get_stock_price -/

/-- One news article as returned by the news API (fields may be absent). -/
structure NewsArticle where
  article_title : Option String
  article_url : Option String
  source : Option String
  post_time_utc : Option String
deriving DecidableEq

/-- Outcome of the HTTP fetch inside `search_financial_news`: a raised
`requests` exception (carrying `str(e)`), a JSON decode failure, any other
raised exception, or a decoded response body. In the decoded case,
`news := none` models a missing or falsy `data`/`news` field. -/
inductive NewsFetchOutcome where
  | requestExn (e : String)
  | jsonDecodeExn
  | otherExn
  | response (status : String) (message : Option String) (news : Option (List NewsArticle))
deriving DecidableEq

/-- Render a string as a JSON string literal the way `json.dumps` does
(escaping of control characters beyond quote and backslash is omitted;
no article string in scope uses them). -/
def jsonStr (s : String) : String :=
  "\"" ++ String.join (s.data.map (fun c =>
    if c = '\\' then "\\\\" else if c = '"' then "\\\"" else String.singleton c)) ++ "\""

/-- `json.dumps` of an optional string: `null` when absent. -/
def jsonOpt : Option String → String
  | none => "null"
  | some s => jsonStr s

/-- `json.dumps` of one formatted article dict from `search_financial_news`. -/
def formatArticle (a : NewsArticle) : String :=
  "\x7b\"title\": " ++ jsonOpt a.article_title ++
  ", \"url\": " ++ jsonOpt a.article_url ++
  ", \"source\": " ++ jsonOpt a.source ++
  ", \"published_at\": " ++ jsonOpt a.post_time_utc ++ "\x7d"

/-- `json.dumps` of the formatted article list. -/
def formatArticles (articles : List NewsArticle) : String :=
  "[" ++ String.intercalate ", " (articles.map formatArticle) ++ "]"

/-- main.py `search_financial_news`: every failure path returns an
explanatory string; the function never raises. `apiKey` is the
`RAPIDAPI_KEY` environment value. -/
def search_financial_news (query : String) (apiKey : Option String)
    (fetch : NewsFetchOutcome) : String :=
  match apiKey with
  | none => "Error: RAPIDAPI_KEY for news service is not configured."
  | some _ =>
    match fetch with
    | .requestExn e =>
        "Error fetching news for \x27" ++ query ++ "\x27. HTTP request failed: " ++ e
    | .jsonDecodeExn =>
        "Error decoding news API response for \x27" ++ query ++ "\x27."
    | .otherExn =>
        "An unexpected error occurred while fetching news for \x27" ++ query ++ "\x27."
    | .response status message news =>
        match news with
        | some (a :: rest) =>
            if status = "OK" then formatArticles ((a :: rest).take 5)
            else "Error from news API: " ++ message.getD "Unknown error"
        | _ =>
            if status ≠ "OK" then
              "Error from news API: " ++ message.getD "Unknown error"
            else
              "No news articles found for \x27" ++ query ++ "\x27 or in general market trends."

/-- Environment of one `get_stock_price` call. Prices are floats in the
source; they are embedded as integer cents with two-decimal rendering,
which preserves the truthiness tests (`0.0` is falsy) the code performs.
`raisesMsg` models any exception raised inside the `try` body. -/
structure StockEnv where
  raisesMsg : Option String
  historyClose : Option Nat
  infoCurrentPrice : Option Nat
  infoRegularMarketPrice : Option Nat
  infoPreviousClose : Option Nat
deriving DecidableEq

/-- Two-decimal rendering of a cents amount, as `f"{x:.2f}"` renders the
corresponding float. -/
def fmtPrice (cents : Nat) : String :=
  toString (cents / 100) ++ "." ++
    (if cents % 100 < 10 then "0" else "") ++ toString (cents % 100)

/-- Python `a or b` over optional prices: `a` unless it is absent or zero. -/
def orFalsy (a b : Option Nat) : Option Nat :=
  match a with
  | some v => if v = 0 then b else some v
  | none => b

/-- main.py `get_stock_price`: price from the one-day history if present,
else the first truthy of three `info` fields, else an explanatory string;
any raised exception is caught and becomes an explanatory string. -/
def get_stock_price (symbol : String) (env : StockEnv) : String :=
  match env.raisesMsg with
  | some _ =>
      "Error fetching stock price for " ++ symbol ++
      ". Please ensure the ticker is correct and try again."
  | none =>
    match env.historyClose with
    | some p => "The current price of " ++ symbol ++ " is $" ++ fmtPrice p
    | none =>
      match orFalsy env.infoCurrentPrice
              (orFalsy env.infoRegularMarketPrice env.infoPreviousClose) with
      | some p =>
          if p ≠ 0 then "The current price of " ++ symbol ++ " is $" ++ fmtPrice p
          else "Could not retrieve current price for " ++ symbol ++
               ". It might be delisted or an invalid ticker."
      | none =>
          "Could not retrieve current price for " ++ symbol ++
          ". It might be delisted or an invalid ticker."

/-! main.py history fetch (`get_chat_history`) -/

/-- Insert a message into a created_at-ascending list (stable). -/
def insertByCreated (m : ChatMessage) : List ChatMessage → List ChatMessage
  | [] => [m]
  | x :: xs =>
      if m.created_at < x.created_at then m :: x :: xs
      else x :: insertByCreated m xs

/-- Stable sort by ascending `created_at`: the database `order("created_at",
desc=False)` clause. -/
def sortByCreatedAsc : List ChatMessage → List ChatMessage
  | [] => []
  | x :: xs => insertByCreated x (sortByCreatedAsc xs)

/-- The row-level query of main.py `get_chat_history`: rows of the
conversation ordered by ascending `created_at`, limited to 20. With a
falsy conversation id, or when the query raises (`fetchOk = false`), the
function returns the empty history. -/
def get_chat_history_rows (db : DB) (conversation_id : Option ConvId)
    (fetchOk : Bool) : List ChatMessage :=
  match conversation_id with
  | none => []
  | some cid =>
      if fetchOk then
        (sortByCreatedAsc (db.chat_messages.filter
          (fun m => m.conversation_id == cid))).take 20
      else []

/-- One entry of the langchain `ChatMessageHistory` built from the rows. -/
inductive HistMsg where
  | human (s : String)
  | ai (s : String)
deriving DecidableEq

/-- main.py `get_chat_history`, message-level: each row contributes its
truthy (nonempty) user message then its truthy assistant reply. -/
def get_chat_history (db : DB) (conversation_id : Option ConvId)
    (fetchOk : Bool) : List HistMsg :=
  (get_chat_history_rows db conversation_id fetchOk).flatMap (fun m =>
    (if m.user_message ≠ "" then [HistMsg.human m.user_message] else []) ++
    (if m.ai_response ≠ "" then [HistMsg.ai m.ai_response] else []))

/-- Follows the spec wording only, for comparison with the code: the
`fetch_window` contract returns at most `maxTurns` of the MOST RECENT
Turns, ordered oldest first. -/
def fetch_window_spec (db : DB) (cid : ConvId) (maxTurns : Nat) : List ChatMessage :=
  let sorted := sortByCreatedAsc (db.chat_messages.filter
    (fun m => m.conversation_id == cid))
  sorted.drop (sorted.length - maxTurns)

/-! main.py chat flow: authentication, routing, dispatch, persistence -/

/-- Outcome of the Supabase token verification inside `get_current_user`:
a valid user, a response with no user, or a raised exception (carrying
`str(e)`). -/
inductive AuthCheck where
  | valid (uid : UserId)
  | noUser
  | raises (e : String)
deriving DecidableEq

/-- main.py `get_current_user`: 401 unless the `Authorization` header is a
`Bearer` token that verifies to a user. The inner 401 raised when the
response has no user is itself caught by the surrounding `except`, so its
detail is rewrapped as an `Authentication error`. Errors are
(status, detail) pairs. -/
def get_current_user (authorization : Option String) (check : AuthCheck) :
    Except (Nat × String) UserId :=
  match authorization with
  | none => .error (401, "Invalid authentication token")
  | some a =>
    if pyStartsWith a "Bearer " then
      match check with
      | .valid uid => .ok uid
      | .noUser =>
          .error (401,
            "Authentication error: 401: Invalid authentication token or user not found")
      | .raises e => .error (401, "Authentication error: " ++ e)
    else .error (401, "Invalid authentication token")

/-- Outcome of the router LLM call plus output parsing, as consumed by the
external `MultiPromptChain`: a parsed destination label, a parsed
`DEFAULT` answer (no agent fits), an unparseable output (the parser
raises), or a failed classification call (network/provider error). The
failure constructors carry `str(e)` of the raised exception. -/
inductive RouterResult where
  | dest (name : String)
  | useDefault
  | parseFailure (e : String)
  | callFailure (e : String)
deriving DecidableEq

/-- Outcome of running the selected destination AgentExecutor (the
text-generation capability, possibly invoking tools internally): a final
answer text, or a raised exception. -/
inductive AgentRunResult where
  | ok (text : String)
  | exn (e : String)
deriving DecidableEq

/-- The output dictionary of a `multi_agent_chain.invoke` call, restricted
to the keys main.py reads: `output` and `destination`. -/
structure ChainOutput where
  output : Option String
  destination : Option String
deriving DecidableEq

/-- The destination names registered in main.py `prompt_infos`, in order.
`General Advisor` is also the chain default. -/
def promptInfoNames : List String :=
  ["Market Analyst", "Portfolio Manager", "Financial Planner",
   "Tax Optimizer", "Risk Manager", "Performance Chart Generator",
   "General Advisor"]

/-- Modelled from the spec: the external langchain `MultiPromptChain`
collaborator as configured at the main.py call site (destination chains
keyed by `promptInfoNames`, default chain `General Advisor`). A failed or
unparseable router call raises; a parsed label outside the registered
destinations raises; otherwise the chosen executor runs and its raised
exception, if any, propagates. On success the output dictionary carries
the final text, and the routed destination label when one was parsed. -/
def multiPromptInvoke (router : RouterResult) (run : AgentRunResult) :
    Except String ChainOutput :=
  match router with
  | .callFailure e => .error e
  | .parseFailure e => .error e
  | .useDefault =>
      match run with
      | .exn e => .error e
      | .ok t => .ok { output := some t, destination := none }
  | .dest n =>
      if n ∈ promptInfoNames then
        match run with
        | .exn e => .error e
        | .ok t => .ok { output := some t, destination := some n }
      else .error ("Received invalid destination chain name " ++ n)

/-- main.py chat, extraction of the reply text from the chain output. -/
def extractReply (out : ChainOutput) : String :=
  out.output.getD "Error: Could not get response from agent."

/-- main.py chat, extraction of the responding agent name: the
`destination` key with default `General Advisor`, coerced to
`General Advisor` when falsy or `default_chain`. -/
def extractAgentName (out : ChainOutput) : String :=
  let n := out.destination.getD "General Advisor"
  if n = "" ∨ n = "default_chain" then "General Advisor" else n

/-- main.py chat, the stored title of a newly created conversation
(line 567): the message, truncated to 50 code points with `...` appended
when longer than 50. -/
def chatTitle (message : String) : String :=
  if message.length > 50 then pyTake message 50 ++ "..." else message

/-- Environment of one chat request: the outcomes of every external call
the handler makes, the clock, and the id Supabase assigns to a newly
inserted conversation. -/
structure ChatEnv where
  router : RouterResult
  run : AgentRunResult
  historyOk : Bool
  insertMessageOk : Bool
  updateConversationOk : Bool
  insertConversationOk : Bool
  now : Nat
  freshId : ConvId
deriving DecidableEq

/-- Result of one chat request: the response body of a 200, or an
`HTTPException`. Both carry the database state after the request, so that
partial writes are observable. -/
inductive ChatResult where
  | ok (message : String) (agent_name : String) (conversation_id : ConvId)
      (created_at : Nat) (db : DB)
  | httpError (status : Nat) (detail : String) (db : DB)
deriving DecidableEq

/-- main.py `chat` after authentication: fetch history, invoke the
multi-agent chain, then persist. An existing conversation id gets a
message insert followed by a separate `updated_at` update; otherwise a
conversation insert precedes the message insert. A raised exception at
any step is caught by the outer `except` and becomes a 500, leaving
whatever writes already executed in place. No ownership check is
performed on a supplied conversation id. -/
def chatBody (db : DB) (uid : UserId) (conversation_id : Option ConvId)
    (message : String) (context : Option String) (env : ChatEnv) : ChatResult :=
  match multiPromptInvoke env.router env.run with
  | .error e => .httpError 500 ("Error processing chat message: " ++ e) db
  | .ok out =>
    let agent_response := extractReply out
    let agent_name := extractAgentName out
    match conversation_id with
    | some cid =>
        if env.insertMessageOk then
          let db1 : DB := { db with chat_messages := db.chat_messages ++
            [{ conversation_id := cid, user_id := uid, user_message := message,
               ai_response := agent_response, context := context,
               agent_name := agent_name, created_at := env.now }] }
          if env.updateConversationOk then
            let convs := db1.conversations.map
              (fun c => if c.id = cid then { c with updated_at := env.now } else c)
            let db2 : DB := { db1 with conversations := convs }
            .ok agent_response agent_name cid env.now db2
          else
            .httpError 500 "Error processing chat message: conversation update failed" db1
        else
          .httpError 500 "Error processing chat message: message insert failed" db
    | none =>
        if env.insertConversationOk then
          let db1 : DB := { db with conversations := db.conversations ++
            [{ id := env.freshId, user_id := uid, title := chatTitle message,
               created_at := env.now, updated_at := env.now }] }
          if env.insertMessageOk then
            let db2 : DB := { db1 with chat_messages := db1.chat_messages ++
              [{ conversation_id := env.freshId, user_id := uid,
                 user_message := message, ai_response := agent_response,
                 context := context, agent_name := agent_name,
                 created_at := env.now }] }
            .ok agent_response agent_name env.freshId env.now db2
          else
            .httpError 500 "Error processing chat message: message insert failed" db1
        else
          .httpError 500 "Error processing chat message: conversation insert failed" db

/-- main.py `POST /api/chat`: authentication via `get_current_user`, then
the chat body. An authentication failure is surfaced as its own
HTTPException and the database is untouched. -/
def chat (authorization : Option String) (check : AuthCheck) (db : DB)
    (conversation_id : Option ConvId) (message : String)
    (context : Option String) (env : ChatEnv) : ChatResult :=
  match get_current_user authorization check with
  | .error (s, d) => .httpError s d db
  | .ok uid => chatBody db uid conversation_id message context env

/-! conversation_routes.py: clear and delete -/

/-- Environment of one clear/delete request: whether the ownership query,
the message delete and the conversation update/delete raise, plus the
clock for the `updated_at` refresh. -/
structure ClearEnv where
  selectOk : Bool
  deleteOk : Bool
  updateOk : Bool
  now : Nat
deriving DecidableEq

/-- Result of a conversation route: a success body or an `HTTPException`,
each carrying the database state after the request. -/
inductive RouteResult where
  | ok (body : String) (db : DB)
  | httpError (status : Nat) (detail : String) (db : DB)
deriving DecidableEq

/-- conversation_routes.py `clear_conversation`: ownership is checked
first (404 on no match), then all messages of the conversation are
deleted, then its `updated_at` is refreshed. A raised exception at any
step becomes a 500 with the writes so far in place. -/
def clear_conversation (db : DB) (cid : ConvId) (uid : UserId)
    (env : ClearEnv) : RouteResult :=
  if env.selectOk then
    let owned := db.conversations.filter (fun c => c.id == cid && c.user_id == uid)
    if owned.isEmpty then
      .httpError 404 "Conversation not found or not owned by user" db
    else if env.deleteOk then
      let msgs := db.chat_messages.filter (fun m => !(m.conversation_id == cid))
      let db1 : DB := { db with chat_messages := msgs }
      if env.updateOk then
        let convs := db1.conversations.map
          (fun c => if c.id = cid then { c with updated_at := env.now } else c)
        .ok "Conversation cleared" { db1 with conversations := convs }
      else
        .httpError 500 "Failed to clear conversation: update failed" db1
    else
      .httpError 500 "Failed to clear conversation: delete failed" db
  else
    .httpError 500 "Failed to clear conversation: select failed" db

/-- conversation_routes.py `delete_conversation`: ownership is checked
first (404 on no match), then the messages and the conversation row are
deleted. -/
def delete_conversation (db : DB) (cid : ConvId) (uid : UserId)
    (env : ClearEnv) : RouteResult :=
  if env.selectOk then
    let owned := db.conversations.filter (fun c => c.id == cid && c.user_id == uid)
    if owned.isEmpty then
      .httpError 404 "Conversation not found or not owned by user" db
    else if env.deleteOk then
      let msgs := db.chat_messages.filter (fun m => !(m.conversation_id == cid))
      let db1 : DB := { db with chat_messages := msgs }
      if env.updateOk then
        let convs := db1.conversations.filter (fun c => !(c.id == cid))
        .ok "Conversation deleted" { db1 with conversations := convs }
      else
        .httpError 500 "Failed to delete conversation: delete failed" db1
    else
      .httpError 500 "Failed to delete conversation: delete failed" db
  else
    .httpError 500 "Failed to delete conversation: select failed" db

/-- The data-model invariant of the spec: the creation instant of every Turn is
bounded by the `updated_at` of its Conversation. -/
def DBInvariant (db : DB) : Prop :=
  ∀ c ∈ db.conversations, ∀ m ∈ db.chat_messages,
    m.conversation_id = c.id → m.created_at ≤ c.updated_at

instance (db : DB) : Decidable (DBInvariant db) := by
  unfold DBInvariant; infer_instance

/-! Claim theorems -/

/-- C10: for every input, `generate_conversation_title` returns at most 50
code points, and on the empty message it returns the fixed fallback title
rather than an empty title. -/
theorem c10_title_bounds (s : String) :
    (generate_conversation_title s).length ≤ 50 ∧
    (s = "" → generate_conversation_title s = "New Financial Conversation") := by
  constructor
  · unfold generate_conversation_title
    by_cases h : s = ""
    · simp only [h, if_pos rfl]
      decide
    · simp only [h, if_false]
      by_cases h2 : s.length ≤ 50
      · simp [h2]
      · simp only [h2, if_false]
        rw [string_length_append, pyTake_length]
        have h3 : ("..." : String).length = 3 := by decide
        rw [h3]
        omega
  · intro h
    simp [generate_conversation_title, h]

/-- C10 witness: the empty message evaluates to the fallback title, which
is within the 50-point bound. -/
theorem c10_witness :
    (generate_conversation_title "").length ≤ 50 ∧
    generate_conversation_title "" = "New Financial Conversation" :=
  ⟨(c10_title_bounds "").1, (c10_title_bounds "").2 rfl⟩

/-- C3: when the chat flow creates a new conversation from a first
message, the stored title is the message itself when it is at most 50
code points, and the message truncated to 50 code points with a `...`
suffix when longer. -/
theorem c3_first_message_title (db : DB) (uid : UserId) (message : String)
    (context : Option String) (t : String) (ho uo : Bool) (now : Nat) (fid : ConvId) :
    ∃ db', chatBody db uid none message context
        { router := .useDefault, run := .ok t, historyOk := ho,
          insertMessageOk := true, updateConversationOk := uo,
          insertConversationOk := true, now := now, freshId := fid } =
      .ok t "General Advisor" fid now db' ∧
    ∃ c ∈ db'.conversations, c.id = fid ∧
      (message.length ≤ 50 → c.title = message) ∧
      (message.length > 50 → c.title = pyTake message 50 ++ "...") := by
  refine ⟨_, rfl, ?_⟩
  refine ⟨{ id := fid, user_id := uid, title := chatTitle message,
            created_at := now, updated_at := now }, ?_, rfl, ?_, ?_⟩
  · simp
  · intro h
    simp [chatTitle, Nat.not_lt.2 h]
  · intro h
    simp [chatTitle, h]

/-- C3 witness: a short first message keeps its exact text as the title,
and a 60-point message is truncated to its first 50 points plus dots. -/
theorem c3_witness :
    (∃ db', chatBody ⟨[], []⟩ 1 none "What is AAPL trading at?" none
        { router := .useDefault, run := .ok "reply", historyOk := true,
          insertMessageOk := true, updateConversationOk := true,
          insertConversationOk := true, now := 5, freshId := 7 } =
      .ok "reply" "General Advisor" 7 5 db' ∧
      ∃ c ∈ db'.conversations, c.id = 7 ∧ c.title = "What is AAPL trading at?") ∧
    (∃ db', chatBody ⟨[], []⟩ 1 none "aaaaaaaaaaaaaaaaaaaaaaaaaaaaaaaaaaaaaaaaaaaaaaaaaaaaaaaaaaaa" none
        { router := .useDefault, run := .ok "reply", historyOk := true,
          insertMessageOk := true, updateConversationOk := true,
          insertConversationOk := true, now := 5, freshId := 7 } =
      .ok "reply" "General Advisor" 7 5 db' ∧
      ∃ c ∈ db'.conversations, c.id = 7 ∧
        c.title = "aaaaaaaaaaaaaaaaaaaaaaaaaaaaaaaaaaaaaaaaaaaaaaaaaa...") := by
  constructor
  · obtain ⟨db', h1, c, hc, hid, hle, _⟩ :=
      c3_first_message_title ⟨[], []⟩ 1 "What is AAPL trading at?" none "reply" true true 5 7
    exact ⟨db', h1, c, hc, hid, by rw [hle (by decide)]⟩
  · obtain ⟨db', h1, c, hc, hid, _, hgt⟩ :=
      c3_first_message_title ⟨[], []⟩ 1
        "aaaaaaaaaaaaaaaaaaaaaaaaaaaaaaaaaaaaaaaaaaaaaaaaaaaaaaaaaaaa" none "reply" true true 5 7
    refine ⟨db', h1, c, hc, hid, ?_⟩
    rw [hgt (by decide)]
    decide

/-- C5 counterexample: the non-catalog name `error` is mapped to the error
agent, not to the designated default agent. -/
theorem c5_counterexample :
    get_agent_definition "error" = ERROR_AGENT ∧
    ERROR_AGENT ≠ DEFAULT_AGENT ∧
    AGENT_DEFINITIONS.lookup "error" = none := by
  refine ⟨by decide, by decide, by decide⟩

/-- C5 (amended): a catalog name returns its declared definition
unchanged; a name outside the catalog other than the reserved name
`error` returns the default agent; `error` returns the error agent. -/
theorem c5_amended (name : String) :
    (∀ d, AGENT_DEFINITIONS.lookup name = some d → get_agent_definition name = d) ∧
    (AGENT_DEFINITIONS.lookup name = none → name ≠ "error" →
      get_agent_definition name = DEFAULT_AGENT) ∧
    get_agent_definition "error" = ERROR_AGENT := by
  refine ⟨?_, ?_, by decide⟩
  · intro d h
    simp [get_agent_definition, h]
  · intro h hne
    simp [get_agent_definition, h, hne]

/-- C5 witness: a known catalog name returns its own entry and an unknown
name falls back to the default agent. -/
theorem c5_witness :
    get_agent_definition "market_analyst" =
      (AGENT_DEFINITIONS.lookup "market_analyst").getD DEFAULT_AGENT ∧
    get_agent_definition "unknown_agent_xyz" = DEFAULT_AGENT := by
  constructor
  · exact (c5_amended "market_analyst").1
      ((AGENT_DEFINITIONS.lookup "market_analyst").getD DEFAULT_AGENT) (by decide)
  · exact (c5_amended "unknown_agent_xyz").2.1 (by decide) (by decide)

/-- One stored Turn of the 25-Turn history-window scenario: Turn `n` was
created at instant `n`. -/
def msgN (n : Nat) : ChatMessage :=
  { conversation_id := 1, user_id := 1, user_message := "u" ++ toString n,
    ai_response := "a" ++ toString n, context := none,
    agent_name := "General Advisor", created_at := n }

/-- The history-window scenario store: one conversation holding 25 Turns
with creation instants 0 to 24. -/
def store25 : DB :=
  { conversations := [{ id := 1, user_id := 1, title := "t",
                        created_at := 0, updated_at := 24 }],
    chat_messages := (List.range 25).map msgN }

/-- C1: evaluating the history-window fetch of the chat flow on 25 stored
Turns with the hardcoded limit of 20 returns the 20 OLDEST Turns (created
at 0..19): the most recent Turn is absent, and the result differs from
the window the spec describes (the 20 most recent, created at 5..24,
oldest first). -/
theorem c1_window_evaluation :
    get_chat_history_rows store25 (some 1) true = (List.range 20).map msgN ∧
    msgN 24 ∉ get_chat_history_rows store25 (some 1) true ∧
    fetch_window_spec store25 1 20 = (List.range 20).map (fun i => msgN (i + 5)) ∧
    get_chat_history_rows store25 (some 1) true ≠ fetch_window_spec store25 1 20 := by
  refine ⟨by decide, by decide, by decide, by decide⟩

/-- C8: a clear request by a caller who does not own the conversation is
rejected with the not-found/not-owned detail before any deletion: the
store is returned unchanged, so zero Turns are deleted. -/
theorem c8_clear_unowned (db : DB) (cid : ConvId) (uid : UserId) (env : ClearEnv)
    (hsel : env.selectOk = true)
    (hun : ∀ c ∈ db.conversations, ¬(c.id = cid ∧ c.user_id = uid)) :
    clear_conversation db cid uid env =
      .httpError 404 "Conversation not found or not owned by user" db := by
  have hfil : db.conversations.filter (fun c => c.id == cid && c.user_id == uid) = [] := by
    rw [List.filter_eq_nil_iff]
    intro c hc
    simp only [Bool.and_eq_true, beq_iff_eq, not_and]
    intro h1 h2
    exact hun c hc ⟨h1, h2⟩
  unfold clear_conversation
  simp [hsel, hfil]

/-- The C8 scenario store: one conversation owned by user 2, holding one
Turn. -/
def c8db : DB :=
  { conversations := [{ id := 1, user_id := 2, title := "t",
                        created_at := 0, updated_at := 3 }],
    chat_messages := [{ conversation_id := 1, user_id := 2, user_message := "hi",
                        ai_response := "yo", context := none,
                        agent_name := "General Advisor", created_at := 3 }] }

/-- C8 witness: user 1 clearing the conversation of user 2 receives the 404
rejection and the stored Turn survives. -/
theorem c8_witness :
    clear_conversation c8db 1 1 ⟨true, true, true, 9⟩ =
      .httpError 404 "Conversation not found or not owned by user" c8db :=
  c8_clear_unowned c8db 1 1 ⟨true, true, true, 9⟩ rfl (by decide)

/-- A successful clear by the owner: messages of the conversation are
deleted and its `updated_at` is refreshed. -/
theorem clear_conversation_ok (db : DB) (cid : ConvId) (uid : UserId) (env : ClearEnv)
    (hs : env.selectOk = true) (hd : env.deleteOk = true) (hu : env.updateOk = true)
    (hown : ∃ c ∈ db.conversations, c.id = cid ∧ c.user_id = uid) :
    clear_conversation db cid uid env = .ok "Conversation cleared"
      { conversations := db.conversations.map
          (fun c => if c.id = cid then { c with updated_at := env.now } else c),
        chat_messages := db.chat_messages.filter
          (fun m => !(m.conversation_id == cid)) } := by
  obtain ⟨c, hc, hcid, huid⟩ := hown
  have hmem : c ∈ db.conversations.filter (fun c => c.id == cid && c.user_id == uid) :=
    List.mem_filter.2 ⟨hc, by simp [hcid, huid]⟩
  have hne : (db.conversations.filter
      (fun c => c.id == cid && c.user_id == uid)).isEmpty = false := by
    cases hfe : db.conversations.filter (fun c => c.id == cid && c.user_id == uid) with
    | nil => rw [hfe] at hmem; exact absurd hmem (List.not_mem_nil c)
    | cons a l => rfl
  unfold clear_conversation
  simp [hs, hd, hu, hne]

/-- Re-filtering for a conversation after its messages were deleted
yields nothing. -/
theorem filter_after_delete (l : List ChatMessage) (cid : ConvId) :
    (l.filter (fun m => !(m.conversation_id == cid))).filter
      (fun m => m.conversation_id == cid) = [] := by
  induction l with
  | nil => rfl
  | cons a l ih =>
    by_cases h : a.conversation_id = cid <;> simp [List.filter_cons, h, ih]

/-- Refreshing `updated_at` preserves the identity
fields of each conversation. -/
theorem map_update_preserves_identity (l : List Conversation) (cid : ConvId) (now : Nat) :
    (l.map (fun c => if c.id = cid then { c with updated_at := now } else c)).map
      (fun c => (c.id, c.user_id, c.title)) =
    l.map (fun c => (c.id, c.user_id, c.title)) := by
  rw [List.map_map]
  apply List.map_congr_left
  intro c _
  by_cases h : c.id = cid <;> simp [h]

/-- C9: clear is idempotent for the owner: the first call succeeds and
leaves zero Turns, the second call also succeeds (no error) and again
leaves zero Turns, and both calls preserve the identity
fields of every conversation (id, owner, title). -/
theorem c9_clear_idempotent (db : DB) (cid : ConvId) (uid : UserId) (env env2 : ClearEnv)
    (hs : env.selectOk = true) (hd : env.deleteOk = true) (hu : env.updateOk = true)
    (hs2 : env2.selectOk = true) (hd2 : env2.deleteOk = true) (hu2 : env2.updateOk = true)
    (hown : ∃ c ∈ db.conversations, c.id = cid ∧ c.user_id = uid) :
    ∃ db1 db2,
      clear_conversation db cid uid env = .ok "Conversation cleared" db1 ∧
      db1.chat_messages.filter (fun m => m.conversation_id == cid) = [] ∧
      clear_conversation db1 cid uid env2 = .ok "Conversation cleared" db2 ∧
      db2.chat_messages.filter (fun m => m.conversation_id == cid) = [] ∧
      db1.conversations.map (fun c => (c.id, c.user_id, c.title)) =
        db.conversations.map (fun c => (c.id, c.user_id, c.title)) ∧
      db2.conversations.map (fun c => (c.id, c.user_id, c.title)) =
        db.conversations.map (fun c => (c.id, c.user_id, c.title)) := by
  obtain ⟨c0, hc0, hcid, huid⟩ := hown
  have h1 := clear_conversation_ok db cid uid env hs hd hu ⟨c0, hc0, hcid, huid⟩
  have hown1 : ∃ c2 ∈ db.conversations.map
      (fun c => if c.id = cid then { c with updated_at := env.now } else c),
      c2.id = cid ∧ c2.user_id = uid := by
    refine ⟨{ c0 with updated_at := env.now }, ?_, hcid, huid⟩
    exact List.mem_map.2 ⟨c0, hc0, by simp [hcid]⟩
  have h2 := clear_conversation_ok
    { conversations := db.conversations.map
        (fun c => if c.id = cid then { c with updated_at := env.now } else c),
      chat_messages := db.chat_messages.filter
        (fun m => !(m.conversation_id == cid)) }
    cid uid env2 hs2 hd2 hu2 hown1
  refine ⟨_, _, h1, ?_, h2, ?_, ?_, ?_⟩
  · exact filter_after_delete db.chat_messages cid
  · exact filter_after_delete (db.chat_messages.filter
      (fun m => !(m.conversation_id == cid))) cid
  · exact map_update_preserves_identity db.conversations cid env.now
  · rw [map_update_preserves_identity, map_update_preserves_identity]

/-- The C9 scenario store: one conversation owned by user 1 with two
Turns. -/
def c9db : DB :=
  { conversations := [{ id := 1, user_id := 1, title := "t",
                        created_at := 0, updated_at := 2 }],
    chat_messages := [{ conversation_id := 1, user_id := 1, user_message := "a",
                        ai_response := "b", context := none,
                        agent_name := "General Advisor", created_at := 1 },
                      { conversation_id := 1, user_id := 1, user_message := "c",
                        ai_response := "d", context := none,
                        agent_name := "General Advisor", created_at := 2 }] }

/-- C9 witness: clearing a two-Turn conversation twice succeeds both
times, each time leaving zero Turns and the conversation identity in
place. -/
theorem c9_witness :
    ∃ db1 db2,
      clear_conversation c9db 1 1 ⟨true, true, true, 5⟩ = .ok "Conversation cleared" db1 ∧
      db1.chat_messages.filter (fun m => m.conversation_id == 1) = [] ∧
      clear_conversation db1 1 1 ⟨true, true, true, 6⟩ = .ok "Conversation cleared" db2 ∧
      db2.chat_messages.filter (fun m => m.conversation_id == 1) = [] ∧
      db1.conversations.map (fun c => (c.id, c.user_id, c.title)) =
        c9db.conversations.map (fun c => (c.id, c.user_id, c.title)) ∧
      db2.conversations.map (fun c => (c.id, c.user_id, c.title)) =
        c9db.conversations.map (fun c => (c.id, c.user_id, c.title)) :=
  c9_clear_idempotent c9db 1 1 ⟨true, true, true, 5⟩ ⟨true, true, true, 6⟩
    rfl rfl rfl rfl rfl rfl (by decide)

/-- Any successful chat response is built from a successful chain
invocation: its reply text and agent name are the extractions main.py
performs on the chain output. -/
theorem chatBody_ok_shape (db : DB) (uid : UserId) (conversation_id : Option ConvId)
    (message : String) (context : Option String) (env : ChatEnv)
    (m an : String) (cr : ConvId) (t : Nat) (db' : DB)
    (h : chatBody db uid conversation_id message context env = .ok m an cr t db') :
    ∃ out, multiPromptInvoke env.router env.run = .ok out ∧
      m = extractReply out ∧ an = extractAgentName out := by
  unfold chatBody at h
  cases hmi : multiPromptInvoke env.router env.run with
  | error e =>
    rw [hmi] at h
    exact absurd h (by simp)
  | ok out =>
    rw [hmi] at h
    refine ⟨out, rfl, ?_⟩
    cases conversation_id with
    | some cid =>
      dsimp only at h
      split at h
      · split at h
        · cases h; exact ⟨rfl, rfl⟩
        · exact absurd h (by simp)
      · exact absurd h (by simp)
    | none =>
      dsimp only at h
      split at h
      · split at h
        · cases h; exact ⟨rfl, rfl⟩
        · exact absurd h (by simp)
      · exact absurd h (by simp)

/-- A successful chain invocation always resolves, after the extraction
main.py performs, to an agent name among the registered destinations; it
is the chain default `General Advisor` whenever the router answered that
no agent fits. -/
theorem multiPromptInvoke_ok_name (r : RouterResult) (run : AgentRunResult)
    (out : ChainOutput) (h : multiPromptInvoke r run = .ok out) :
    extractAgentName out ∈ promptInfoNames ∧
    (r = .useDefault → extractAgentName out = "General Advisor") := by
  cases r with
  | callFailure e => exact absurd h (by simp [multiPromptInvoke])
  | parseFailure e => exact absurd h (by simp [multiPromptInvoke])
  | useDefault =>
    cases run with
    | exn e => exact absurd h (by simp [multiPromptInvoke])
    | ok t =>
      simp only [multiPromptInvoke, Except.ok.injEq] at h
      subst h
      constructor
      · simp [extractAgentName, promptInfoNames]
      · intro _
        simp [extractAgentName]
  | dest n =>
    by_cases hn : n ∈ promptInfoNames
    · cases run with
      | exn e => exact absurd h (by simp [multiPromptInvoke, hn])
      | ok t =>
        simp only [multiPromptInvoke, hn, if_pos, Except.ok.injEq] at h
        subst h
        constructor
        · by_cases hblank : n = "" ∨ n = "default_chain"
          · simp [extractAgentName, hblank]
            rcases hblank with hb | hb <;> simp [hb, promptInfoNames]
          · simpa [extractAgentName, hblank] using hn
        · intro hco
          exact absurd hco (by simp)
    · exact absurd h (by simp [multiPromptInvoke, hn])

/-- C6 counterexample to the never-aborts clause: with a failing
classification call the chat request aborts with a 500 error instead of
falling back to the default agent. -/
theorem c6_counterexample :
    chat (some "Bearer tok") (.valid 1) ⟨[], []⟩ (some 1) "What is AAPL trading at?" none
      { router := .callFailure "network unreachable", run := .ok "x", historyOk := true,
        insertMessageOk := true, updateConversationOk := true,
        insertConversationOk := true, now := 5, freshId := 2 } =
      .httpError 500 "Error processing chat message: network unreachable" ⟨[], []⟩ := by
  decide

/-- C6 (amended): whenever the chat flow does answer, the recorded agent
name lies in the routable destination set (which contains the default
`General Advisor`), and a no-agent-fits router answer resolves to the
default; but an unparseable router output or a failed classification call
raises, and the request aborts with a 500 error instead of defaulting. -/
theorem c6_amended (db : DB) (uid : UserId) (conversation_id : Option ConvId)
    (message : String) (context : Option String) (env : ChatEnv) :
    (∀ e, env.router = .callFailure e →
      chatBody db uid conversation_id message context env =
        .httpError 500 ("Error processing chat message: " ++ e) db) ∧
    (∀ e, env.router = .parseFailure e →
      chatBody db uid conversation_id message context env =
        .httpError 500 ("Error processing chat message: " ++ e) db) ∧
    (∀ m an cr t db',
      chatBody db uid conversation_id message context env = .ok m an cr t db' →
      an ∈ promptInfoNames) ∧
    (env.router = .useDefault →
      ∀ m an cr t db',
        chatBody db uid conversation_id message context env = .ok m an cr t db' →
        an = "General Advisor") := by
  refine ⟨?_, ?_, ?_, ?_⟩
  · intro e he
    simp [chatBody, multiPromptInvoke, he]
  · intro e he
    simp [chatBody, multiPromptInvoke, he]
  · intro m an cr t db' h
    obtain ⟨out, hmi, _, han⟩ :=
      chatBody_ok_shape db uid conversation_id message context env m an cr t db' h
    rw [han]
    exact (multiPromptInvoke_ok_name env.router env.run out hmi).1
  · intro hr m an cr t db' h
    obtain ⟨out, hmi, _, han⟩ :=
      chatBody_ok_shape db uid conversation_id message context env m an cr t db' h
    rw [han]
    exact (multiPromptInvoke_ok_name env.router env.run out hmi).2 hr

/-- C6 witness: an unparseable router output aborts a concrete request
with a 500 error, and a parsed `Market Analyst` destination yields an
agent name inside the routable set. -/
theorem c6_witness :
    chatBody ⟨[], []⟩ 1 (some 1) "q" none
      { router := .parseFailure "bad json", run := .ok "x", historyOk := true,
        insertMessageOk := true, updateConversationOk := true,
        insertConversationOk := true, now := 5, freshId := 2 } =
      .httpError 500 "Error processing chat message: bad json" ⟨[], []⟩ ∧
    ("Market Analyst" : String) ∈ promptInfoNames := by
  constructor
  · exact (c6_amended ⟨[], []⟩ 1 (some 1) "q" none
      { router := .parseFailure "bad json", run := .ok "x", historyOk := true,
        insertMessageOk := true, updateConversationOk := true,
        insertConversationOk := true, now := 5, freshId := 2 }).2.1 "bad json" rfl
  · exact (c6_amended ⟨[], []⟩ 1 (some 1) "q" none
      { router := .dest "Market Analyst", run := .ok "reply", historyOk := true,
        insertMessageOk := true, updateConversationOk := true,
        insertConversationOk := true, now := 5, freshId := 2 }).2.2.1
      "reply" "Market Analyst" 1 5
      ⟨[], [{ conversation_id := 1, user_id := 1, user_message := "q",
              ai_response := "reply", context := none,
              agent_name := "Market Analyst", created_at := 5 }]⟩ (by decide)

/-- Shape of the store after a successful chat request: either the Turn
was appended to the supplied conversation and the `updated_at` of that conversation
was advanced, or a fresh conversation was created with the
Turn appended to it. -/
theorem chatBody_ok_db (db : DB) (uid : UserId) (conversation_id : Option ConvId)
    (message : String) (context : Option String) (env : ChatEnv)
    (m an : String) (cr : ConvId) (t : Nat) (db' : DB)
    (h : chatBody db uid conversation_id message context env = .ok m an cr t db') :
    (∃ cid, conversation_id = some cid ∧ cr = cid ∧ t = env.now ∧
      db' = { conversations := db.conversations.map
                (fun c => if c.id = cid then { c with updated_at := env.now } else c),
              chat_messages := db.chat_messages ++
                [{ conversation_id := cid, user_id := uid, user_message := message,
                   ai_response := m, context := context, agent_name := an,
                   created_at := env.now }] }) ∨
    (conversation_id = none ∧ cr = env.freshId ∧ t = env.now ∧
      db' = { conversations := db.conversations ++
                [{ id := env.freshId, user_id := uid, title := chatTitle message,
                   created_at := env.now, updated_at := env.now }],
              chat_messages := db.chat_messages ++
                [{ conversation_id := env.freshId, user_id := uid,
                   user_message := message, ai_response := m, context := context,
                   agent_name := an, created_at := env.now }] }) := by
  unfold chatBody at h
  cases hmi : multiPromptInvoke env.router env.run with
  | error e =>
    rw [hmi] at h
    exact absurd h (by simp)
  | ok out =>
    rw [hmi] at h
    cases conversation_id with
    | some cid =>
      dsimp only at h
      split at h
      · split at h
        · cases h; exact Or.inl ⟨_, rfl, rfl, rfl, rfl⟩
        · exact absurd h (by simp)
      · exact absurd h (by simp)
    | none =>
      dsimp only at h
      split at h
      · split at h
        · cases h; exact Or.inr ⟨rfl, rfl, rfl, rfl⟩
        · exact absurd h (by simp)
      · exact absurd h (by simp)

/-- The store reached by the C4 counterexample run: the Turn was inserted
but the conversation timestamp update failed, leaving `updated_at = 0`
behind a Turn created at instant 5. -/
def c4dbBad : DB :=
  { conversations := [{ id := 1, user_id := 1, title := "t",
                        created_at := 0, updated_at := 0 }],
    chat_messages := [{ conversation_id := 1, user_id := 1, user_message := "hello",
                        ai_response := "reply", context := none,
                        agent_name := "General Advisor", created_at := 5 }] }

/-- C4 counterexample: the Turn insert and the timestamp update are two
separate store calls; when the update fails after a successful insert the
request reports failure, yet the store is left in a reachable state whose
Turn is newer than the `updated_at` of its Conversation. -/
theorem c4_counterexample :
    chat (some "Bearer tok") (.valid 1)
      ⟨[{ id := 1, user_id := 1, title := "t", created_at := 0, updated_at := 0 }], []⟩
      (some 1) "hello" none
      { router := .useDefault, run := .ok "reply", historyOk := true,
        insertMessageOk := true, updateConversationOk := false,
        insertConversationOk := true, now := 5, freshId := 2 } =
      .httpError 500 "Error processing chat message: conversation update failed" c4dbBad ∧
    ¬ DBInvariant c4dbBad := by
  refine ⟨by decide, by decide⟩

/-- C4 (amended): the append is not atomic — a failed timestamp update
after a successful insert leaves a Turn newer than its Conversation (see
the counterexample) — but whenever the chat append completes successfully
both writes have happened, and `Conversation.updated_at` bounds the `created_at` of every
Turn afterwards, provided it did before and the clock is
monotone. -/
theorem c4_amended (db : DB) (uid : UserId) (conversation_id : Option ConvId)
    (message : String) (context : Option String) (env : ChatEnv)
    (m an : String) (cr : ConvId) (t : Nat) (db' : DB)
    (hinv : DBInvariant db)
    (hts : ∀ msg ∈ db.chat_messages, msg.created_at ≤ env.now)
    (hfresh : ∀ c ∈ db.conversations, c.id ≠ env.freshId)
    (h : chatBody db uid conversation_id message context env = .ok m an cr t db') :
    DBInvariant db' := by
  rcases chatBody_ok_db db uid conversation_id message context env m an cr t db' h with
    ⟨cid, _, _, _, rfl⟩ | ⟨_, _, _, rfl⟩
  · intro c' hc' msg hmsg hceq
    obtain ⟨c0, hc0, rfl⟩ := List.mem_map.1 hc'
    have hid : (if c0.id = cid then { c0 with updated_at := env.now } else c0).id = c0.id := by
      by_cases hcc : c0.id = cid <;> simp [hcc]
    rcases List.mem_append.1 hmsg with hold | hnew
    · by_cases hcc : c0.id = cid
      · rw [if_pos hcc]
        exact hts msg hold
      · rw [if_neg hcc]
        rw [hid] at hceq
        exact hinv c0 hc0 msg hold hceq
    · have hmsgeq : msg =
          { conversation_id := cid, user_id := uid, user_message := message,
            ai_response := m, context := context, agent_name := an,
            created_at := env.now } := by
        simpa using hnew
      subst hmsgeq
      rw [hid] at hceq
      have hcc : c0.id = cid := hceq.symm
      rw [if_pos hcc]
  · intro c' hc' msg hmsg hceq
    rcases List.mem_append.1 hc' with hcold | hcnew
    · rcases List.mem_append.1 hmsg with hold | hnew
      · exact hinv c' hcold msg hold hceq
      · have hmsgeq : msg =
            { conversation_id := env.freshId, user_id := uid,
              user_message := message, ai_response := m, context := context,
              agent_name := an, created_at := env.now } := by
          simpa using hnew
        subst hmsgeq
        exact absurd hceq.symm (hfresh c' hcold)
    · have hceq2 : c' =
          { id := env.freshId, user_id := uid, title := chatTitle message,
            created_at := env.now, updated_at := env.now } := by
        simpa using hcnew
      subst hceq2
      rcases List.mem_append.1 hmsg with hold | hnew
      · exact hts msg hold
      · have hmsgeq : msg =
            { conversation_id := env.freshId, user_id := uid,
              user_message := message, ai_response := m, context := context,
              agent_name := an, created_at := env.now } := by
          simpa using hnew
        subst hmsgeq
        exact Nat.le_refl _

/-- C4 witness: a successful append to an owned conversation preserves
the timestamp invariant on a concrete store. -/
theorem c4_witness :
    DBInvariant
      ⟨[{ id := 1, user_id := 1, title := "t", created_at := 0, updated_at := 5 }],
       [{ conversation_id := 1, user_id := 1, user_message := "hello",
          ai_response := "reply", context := none,
          agent_name := "General Advisor", created_at := 5 }]⟩ :=
  c4_amended
    ⟨[{ id := 1, user_id := 1, title := "t", created_at := 0, updated_at := 0 }], []⟩
    1 (some 1) "hello" none
    { router := .useDefault, run := .ok "reply", historyOk := true,
      insertMessageOk := true, updateConversationOk := true,
      insertConversationOk := true, now := 5, freshId := 2 }
    "reply" "General Advisor" 1 5 _
    (by decide) (by decide) (by decide) (by decide)

/-- Every authentication failure of `get_current_user` carries status
401. -/
theorem get_current_user_error_status (authorization : Option String)
    (check : AuthCheck) (s : Nat) (d : String)
    (h : get_current_user authorization check = .error (s, d)) : s = 401 := by
  cases authorization with
  | none =>
    simp only [get_current_user, Except.error.injEq, Prod.mk.injEq] at h
    exact h.1.symm
  | some a =>
    by_cases hp : pyStartsWith a "Bearer " = true
    · cases check with
      | valid uid => simp [get_current_user, hp] at h
      | noUser =>
        simp only [get_current_user, hp, if_true, Except.error.injEq,
          Prod.mk.injEq] at h
        exact h.1.symm
      | raises e =>
        simp only [get_current_user, hp, if_true, Except.error.injEq,
          Prod.mk.injEq] at h
        exact h.1.symm
    · simp only [get_current_user] at h
      rw [if_neg hp] at h
      simp only [Except.error.injEq, Prod.mk.injEq] at h
      exact h.1.symm

/-- The C2 scenario store: one conversation owned by user 2. -/
def c2db : DB :=
  { conversations := [{ id := 1, user_id := 2, title := "t",
                        created_at := 0, updated_at := 0 }],
    chat_messages := [] }

/-- C2 counterexample: a text-generation failure makes the chat endpoint
return a hard 500 failure instead of an explanatory reply; and a chat
into a conversation owned by a different user is not rejected — it
succeeds and appends a Turn to the conversation of that user. -/
theorem c2_counterexample :
    chat (some "Bearer tok") (.valid 1) c2db (some 1) "msg" none
      { router := .useDefault, run := .exn "Gemini unavailable", historyOk := true,
        insertMessageOk := true, updateConversationOk := true,
        insertConversationOk := true, now := 5, freshId := 9 } =
      .httpError 500 "Error processing chat message: Gemini unavailable" c2db ∧
    chat (some "Bearer tok") (.valid 1) c2db (some 1) "msg" none
      { router := .useDefault, run := .ok "reply", historyOk := true,
        insertMessageOk := true, updateConversationOk := true,
        insertConversationOk := true, now := 5, freshId := 9 } =
      .ok "reply" "General Advisor" 1 5
        ⟨[{ id := 1, user_id := 2, title := "t", created_at := 0, updated_at := 5 }],
         [{ conversation_id := 1, user_id := 1, user_message := "msg",
            ai_response := "reply", context := none,
            agent_name := "General Advisor", created_at := 5 }]⟩ := by
  refine ⟨by decide, by decide⟩

/-- C2 (amended): missing or invalid credentials are always rejected with
a 401 authentication reason and an untouched store; a failing tool still
produces a normal reply whose text is the explanatory string of the tool, with
the Turn appended; but a text-generation/chain failure is returned as a
hard 500 error, and no conversation-ownership check is performed by the
endpoint. -/
theorem c2_amended (authorization : Option String) (check : AuthCheck) (db : DB)
    (conversation_id : Option ConvId) (message : String) (context : Option String)
    (env : ChatEnv) (uid : UserId) (s : Nat) (d e : String)
    (sym : String) (senv : StockEnv) (cid : ConvId) :
    (get_current_user authorization check = .error (s, d) →
      chat authorization check db conversation_id message context env =
        .httpError s d db ∧ s = 401) ∧
    (env.router = .useDefault → env.run = .exn e →
      chatBody db uid conversation_id message context env =
        .httpError 500 ("Error processing chat message: " ++ e) db) ∧
    (senv.raisesMsg = some e → env.router = .useDefault →
      env.run = .ok (get_stock_price sym senv) →
      env.insertMessageOk = true → env.updateConversationOk = true →
      ∃ db', chatBody db uid (some cid) message context env =
        .ok ("Error fetching stock price for " ++ sym ++
             ". Please ensure the ticker is correct and try again.")
          "General Advisor" cid env.now db' ∧
        db'.chat_messages.length = db.chat_messages.length + 1) := by
  refine ⟨?_, ?_, ?_⟩
  · intro h
    constructor
    · unfold chat
      rw [h]
    · exact get_current_user_error_status authorization check s d h
  · intro hr hrun
    simp [chatBody, multiPromptInvoke, hr, hrun]
  · intro hs hr hrun him huo
    have hgs : get_stock_price sym senv =
        "Error fetching stock price for " ++ sym ++
        ". Please ensure the ticker is correct and try again." := by
      simp [get_stock_price, hs]
    rw [hgs] at hrun
    refine ⟨{ conversations := db.conversations.map
                (fun c => if c.id = cid then { c with updated_at := env.now } else c),
              chat_messages := db.chat_messages ++
                [{ conversation_id := cid, user_id := uid, user_message := message,
                   ai_response := "Error fetching stock price for " ++ sym ++
                     ". Please ensure the ticker is correct and try again.",
                   context := context, agent_name := "General Advisor",
                   created_at := env.now }] }, ?_, by simp⟩
    simp [chatBody, multiPromptInvoke, hr, hrun, him, huo, extractReply, extractAgentName]

/-- C2 witness: a request with no credential is rejected with 401 and an
untouched store; a generation failure on a valid request produces the 500
divergence; a failing price tool still yields a 200 reply carrying the
explanatory tool string with the Turn appended. -/
theorem c2_witness :
    (chat none (.valid 1) c2db (some 1) "msg" none
      { router := .useDefault, run := .ok "reply", historyOk := true,
        insertMessageOk := true, updateConversationOk := true,
        insertConversationOk := true, now := 5, freshId := 9 } =
      .httpError 401 "Invalid authentication token" c2db ∧ (401 : Nat) = 401) ∧
    chatBody c2db 1 (some 1) "msg" none
      { router := .useDefault, run := .exn "boom", historyOk := true,
        insertMessageOk := true, updateConversationOk := true,
        insertConversationOk := true, now := 5, freshId := 9 } =
      .httpError 500 ("Error processing chat message: " ++ "boom") c2db ∧
    ∃ db', chatBody c2db 1 (some 1) "price of AAPL?" none
      { router := .useDefault,
        run := .ok (get_stock_price "AAPL" ⟨some "timeout", none, none, none, none⟩),
        historyOk := true, insertMessageOk := true, updateConversationOk := true,
        insertConversationOk := true, now := 5, freshId := 9 } =
      .ok ("Error fetching stock price for " ++ "AAPL" ++
           ". Please ensure the ticker is correct and try again.")
        "General Advisor" 1 5 db' ∧
      db'.chat_messages.length = c2db.chat_messages.length + 1 :=
  ⟨(c2_amended none (.valid 1) c2db (some 1) "msg" none
      { router := .useDefault, run := .ok "reply", historyOk := true,
        insertMessageOk := true, updateConversationOk := true,
        insertConversationOk := true, now := 5, freshId := 9 }
      1 401 "Invalid authentication token" "e" "AAPL"
      ⟨some "timeout", none, none, none, none⟩ 1).1 rfl,
   (c2_amended none (.valid 1) c2db (some 1) "msg" none
      { router := .useDefault, run := .exn "boom", historyOk := true,
        insertMessageOk := true, updateConversationOk := true,
        insertConversationOk := true, now := 5, freshId := 9 }
      1 401 "d" "boom" "AAPL"
      ⟨some "timeout", none, none, none, none⟩ 1).2.1 rfl rfl,
   (c2_amended none (.valid 1) c2db (some 1) "price of AAPL?" none
      { router := .useDefault,
        run := .ok (get_stock_price "AAPL" ⟨some "timeout", none, none, none, none⟩),
        historyOk := true, insertMessageOk := true, updateConversationOk := true,
        insertConversationOk := true, now := 5, freshId := 9 }
      1 401 "d" "timeout" "AAPL"
      ⟨some "timeout", none, none, none, none⟩ 1).2.2 rfl rfl rfl rfl rfl⟩

/-- C7: each failure mode of the two data-fetching tools returns an
explanatory text string (the functions are total, so no exception
escapes), and a chat request whose generation incorporates such a failed
tool result still answers normally and still appends a Turn. -/
theorem c7_tool_failures (sym q e key message : String) (db : DB) (uid : UserId)
    (cid : ConvId) (context : Option String) (senv : StockEnv) (env : ChatEnv)
    (hs : senv.raisesMsg = some e)
    (hr : env.router = .useDefault)
    (hrun : env.run = .ok (get_stock_price sym senv))
    (him : env.insertMessageOk = true) (huo : env.updateConversationOk = true) :
    get_stock_price sym senv = "Error fetching stock price for " ++ sym ++
      ". Please ensure the ticker is correct and try again." ∧
    search_financial_news q (some key) (.requestExn e) =
      "Error fetching news for \x27" ++ q ++ "\x27. HTTP request failed: " ++ e ∧
    search_financial_news q (some key) .jsonDecodeExn =
      "Error decoding news API response for \x27" ++ q ++ "\x27." ∧
    search_financial_news q (some key) .otherExn =
      "An unexpected error occurred while fetching news for \x27" ++ q ++ "\x27." ∧
    search_financial_news q none (.response "OK" none none) =
      "Error: RAPIDAPI_KEY for news service is not configured." ∧
    ∃ db', chatBody db uid (some cid) message context env =
      .ok (get_stock_price sym senv) "General Advisor" cid env.now db' ∧
      db'.chat_messages.length = db.chat_messages.length + 1 := by
  refine ⟨by simp [get_stock_price, hs], rfl, rfl, rfl, rfl, ?_⟩
  refine ⟨{ conversations := db.conversations.map
              (fun c => if c.id = cid then { c with updated_at := env.now } else c),
            chat_messages := db.chat_messages ++
              [{ conversation_id := cid, user_id := uid, user_message := message,
                 ai_response := get_stock_price sym senv, context := context,
                 agent_name := "General Advisor", created_at := env.now }] }, ?_, by simp⟩
  simp [chatBody, multiPromptInvoke, hr, hrun, him, huo, extractReply, extractAgentName]

/-- C7 witness: a price tool hit by a network timeout returns its
explanatory string on a concrete request, the news tool does likewise for
each of its failure modes, and the Turn is still appended. -/
theorem c7_witness :
    get_stock_price "AAPL" ⟨some "timeout", none, none, none, none⟩ =
      "Error fetching stock price for " ++ "AAPL" ++
      ". Please ensure the ticker is correct and try again." ∧
    search_financial_news "AAPL" (some "k") (.requestExn "timeout") =
      "Error fetching news for \x27" ++ "AAPL" ++ "\x27. HTTP request failed: " ++ "timeout" ∧
    search_financial_news "AAPL" (some "k") .jsonDecodeExn =
      "Error decoding news API response for \x27" ++ "AAPL" ++ "\x27." ∧
    search_financial_news "AAPL" (some "k") .otherExn =
      "An unexpected error occurred while fetching news for \x27" ++ "AAPL" ++ "\x27." ∧
    search_financial_news "AAPL" none (.response "OK" none none) =
      "Error: RAPIDAPI_KEY for news service is not configured." ∧
    ∃ db', chatBody ⟨[{ id := 1, user_id := 1, title := "t",
                        created_at := 0, updated_at := 0 }], []⟩ 1 (some 1)
        "price of AAPL?" none
        { router := .useDefault,
          run := .ok (get_stock_price "AAPL" ⟨some "timeout", none, none, none, none⟩),
          historyOk := true, insertMessageOk := true, updateConversationOk := true,
          insertConversationOk := true, now := 5, freshId := 9 } =
      .ok (get_stock_price "AAPL" ⟨some "timeout", none, none, none, none⟩)
        "General Advisor" 1 5 db' ∧
      db'.chat_messages.length =
        (⟨[{ id := 1, user_id := 1, title := "t",
             created_at := 0, updated_at := 0 }], []⟩ : DB).chat_messages.length + 1 :=
  c7_tool_failures "AAPL" "AAPL" "timeout" "k" "price of AAPL?"
    ⟨[{ id := 1, user_id := 1, title := "t", created_at := 0, updated_at := 0 }], []⟩
    1 1 none ⟨some "timeout", none, none, none, none⟩
    { router := .useDefault,
      run := .ok (get_stock_price "AAPL" ⟨some "timeout", none, none, none, none⟩),
      historyOk := true, insertMessageOk := true, updateConversationOk := true,
      insertConversationOk := true, now := 5, freshId := 9 }
    rfl rfl rfl rfl rfl

end ARWIGOS
